import Mathlib

/-!
Verification of the easyutilityhub serverless proxy handlers.

The repository is a set of independent Vercel-style HTTP handlers, each a
thin proxy in front of a third-party API.  The development below shallowly
embeds the request-handling logic of the handlers the claims touch:

* `src/api/grammar.js`      — Gemini JSON handler with a bounded retry loop
  (`MAX_RETRIES = 3`, exponential backoff `BASE_DELAY * 2^n`);
* `src/api/word-scramble-ai.js` — single-shot Gemini JSON handler;
* `src/api/remove-background.js` (both handlers) and `src/unnamed/part_002`,
  `src/unnamed/part_003` — image proxies (ClipDrop / remove.bg);
* `src/unnamed/part_001` (first handler) — streaming ClipDrop proxy with a
  405 wrong-method branch.

The upstream vendor is modelled by the per-attempt outcome of `fetch`
(HTTP-ok body / non-success status / network error); the handlers' control
flow, string handling and response construction are translated from the
JavaScript source.  JavaScript objects are modelled as ordered association
lists with unique-key assignment, so that the object-spread expression
`{ success: true, ...data }` is embedded faithfully.
-/

namespace EasyUtilityHub

/-! ## JSON values and JavaScript object operations -/

/-- A JSON value, as produced by `JSON.parse`. -/
inductive JVal where
  | null
  | bool (b : Bool)
  | num (n : Int)
  | str (s : String)
  | arr (elems : List JVal)
  | obj (fields : List (String × JVal))

/-- Property lookup `obj[k]` on a JavaScript object modelled as an ordered
association list (first matching key; JS objects keep keys unique). -/
def getKey (obj : List (String × JVal)) (k : String) : Option JVal :=
  (obj.find? (fun p => p.1 == k)).map Prod.snd

/-- Property assignment `obj[k] = v` on a JavaScript object: overwrite the
existing entry in place (keeping its position) or append a new one. -/
def setKey : List (String × JVal) → String → JVal → List (String × JVal)
  | [], k, v => [(k, v)]
  | p :: rest, k, v => if p.1 == k then (k, v) :: rest else p :: setKey rest k v

/-- Object spread `{ ...base, ...data }`: assign each property of `data`
into `base`, left to right. -/
def spreadInto (base data : List (String × JVal)) : List (String × JVal) :=
  data.foldl (fun acc p => setKey acc p.1 p.2) base

/-- The 200 body `{ success: true, ...data }` used by the Gemini JSON
handlers (grammar.js line 110, plagiarism.js line 121,
word-scramble-ai.js line 68). -/
def successEnvelope (data : List (String × JVal)) : List (String × JVal) :=
  spreadInto [("success", JVal.bool true)] data

/-- The JSON error envelope `{ success: false, message }`. -/
def errorEnvelope (message : String) : List (String × JVal) :=
  [("success", JVal.bool false), ("message", JVal.str message)]

/-- Does `l` start with `pat`? -/
def listStartsWith [BEq α] : List α → List α → Bool
  | _, [] => true
  | [], _ :: _ => false
  | a :: as, b :: bs => a == b && listStartsWith as bs

/-- Does `l` contain `pat` as a contiguous sublist? -/
def listContainsSub [BEq α] : List α → List α → Bool
  | [], pat => pat.isEmpty
  | a :: as, pat => listStartsWith (a :: as) pat || listContainsSub as pat

/-- JavaScript `s.includes(pat)` (substring test). -/
def jsIncludes (s pat : String) : Bool :=
  listContainsSub s.data pat.data

/-! ### Lemmas about assignment and spread -/

theorem getKey_setKey_self (obj : List (String × JVal)) (k : String) (v : JVal) :
    getKey (setKey obj k v) k = some v := by
  induction obj with
  | nil => simp [setKey, getKey]
  | cons p rest ih =>
    by_cases h : (p.1 == k) = true
    · simp [setKey, h, getKey, List.find?]
    · simp only [setKey, h, if_neg]
      simp only [Bool.not_eq_true] at h
      simpa [getKey, List.find?, h] using ih

theorem getKey_setKey_ne (obj : List (String × JVal)) {k k' : String} (v : JVal)
    (h : k' ≠ k) : getKey (setKey obj k v) k' = getKey obj k' := by
  induction obj with
  | nil =>
    have : (k == k') = false := by
      simpa using fun e => h e.symm
    simp [setKey, getKey, List.find?, this]
  | cons p rest ih =>
    by_cases hp : (p.1 == k) = true
    · have hpk : p.1 = k := by simpa using hp
      have h1 : (k == k') = false := by
        simpa using fun e => h e.symm
      have h2 : (p.1 == k') = false := by
        simpa [hpk] using fun e => h e.symm
      simp [setKey, hp, getKey, List.find?, h1, h2]
    · simp only [setKey, hp, if_neg, Bool.not_eq_true] at *
      by_cases hq : (p.1 == k') = true
      · simp [setKey, hp, getKey, List.find?, hq]
      · simp only [Bool.not_eq_true] at hq
        simpa [setKey, hp, getKey, List.find?, hq] using ih

theorem setKey_of_not_mem (obj : List (String × JVal)) {k : String} (v : JVal)
    (h : k ∉ obj.map Prod.fst) : setKey obj k v = obj ++ [(k, v)] := by
  induction obj with
  | nil => simp [setKey]
  | cons p rest ih =>
    simp only [List.map_cons, List.mem_cons, not_or] at h
    have hp : (p.1 == k) = false := by
      simpa using fun e => h.1 e.symm
    simp [setKey, hp, ih h.2]

/-- Spreading fields whose keys are absent from `data` does not change what
a lookup of such a key sees. -/
theorem getKey_spreadInto_of_not_mem (data : List (String × JVal)) {k : String}
    (h : k ∉ data.map Prod.fst) :
    ∀ base, getKey (spreadInto base data) k = getKey base k := by
  induction data with
  | nil => intro base; simp [spreadInto]
  | cons p rest ih =>
    intro base
    simp only [List.map_cons, List.mem_cons, not_or] at h
    have : spreadInto base (p :: rest) = spreadInto (setKey base p.1 p.2) rest := rfl
    rw [this, ih h.2, getKey_setKey_ne _ _ h.1]

/-- With unique keys, every field of `data` is visible unchanged after the
spread (the single assignment for that key wins). -/
theorem getKey_spreadInto_of_mem (data : List (String × JVal))
    (hnd : (data.map Prod.fst).Nodup) {k : String} {v : JVal}
    (hmem : (k, v) ∈ data) :
    ∀ base, getKey (spreadInto base data) k = some v := by
  induction data with
  | nil => simp at hmem
  | cons p rest ih =>
    intro base
    simp only [List.map_cons, List.nodup_cons] at hnd
    have hstep : spreadInto base (p :: rest) = spreadInto (setKey base p.1 p.2) rest := rfl
    rcases List.mem_cons.mp hmem with hhead | htail
    · subst hhead
      have hnot : k ∉ rest.map Prod.fst := by simpa using hnd.1
      rw [hstep, getKey_spreadInto_of_not_mem rest hnot]
      exact getKey_setKey_self base k v
    · exact ih hnd.2 htail (setKey base p.1 p.2)

/-- Spreading an object whose keys are fresh for the base and pairwise
distinct is plain concatenation: `{ success: true, ...data }` keeps every
field of `data` in order. -/
theorem spreadInto_of_fresh (data : List (String × JVal)) :
    ∀ base : List (String × JVal),
      (∀ k, k ∈ data.map Prod.fst → k ∉ base.map Prod.fst) →
      (data.map Prod.fst).Nodup →
      spreadInto base data = base ++ data := by
  induction data with
  | nil => intro base _ _; simp [spreadInto]
  | cons p rest ih =>
    intro base hfresh hnd
    simp only [List.map_cons, List.nodup_cons] at hnd
    have hstep : spreadInto base (p :: rest) = spreadInto (setKey base p.1 p.2) rest := rfl
    have hpb : p.1 ∉ base.map Prod.fst := hfresh p.1 (by simp)
    rw [hstep, setKey_of_not_mem base p.2 hpb]
    rw [ih (base ++ [(p.1, p.2)]) ?fresh hnd.2]
    · simp
    · intro k hk
      simp only [List.map_append, List.mem_append, not_or]
      refine ⟨hfresh k (by simp [hk]), ?_⟩
      intro hcontra
      simp only [List.map_cons, List.map_nil, List.mem_cons, List.not_mem_nil,
        or_false] at hcontra
      exact hnd.1 (hcontra ▸ hk)

/-! ## grammar.js: the Gemini JSON handler with bounded retry

Embedding of `src/api/grammar.js`.  The handler checks the API key, then
the input, then runs a retry loop of at most `MAX_RETRIES + 1` attempts.
Each attempt's `fetch` is modelled by a `FetchOutcome` taken from a list
(one entry per outbound call actually made); the per-attempt control flow
(lines 79–151) and the outer catch (lines 154–173) are translated clause
by clause. -/

/-- How a thrown JavaScript error is classified by the outer catch:
`error.name === 'AbortError'`, `error instanceof SyntaxError` (thrown only
by `JSON.parse`), or a plain `new Error(...)`. -/
inductive ErrKind where
  | plain
  | parseFailure
  | aborted
deriving DecidableEq

/-- A thrown JavaScript error: its classification and its `.message`. -/
structure JsError where
  kind : ErrKind
  message : String

/-- The `candidate.finishReason` values the handler inspects. -/
inductive FinishReason where
  | SAFETY
  | RECITATION
  | OTHER

/-- Result of `JSON.parse(part.text)`: either the parsed object or a thrown
`SyntaxError` carrying a message. -/
inductive ParseOutcome where
  | parsed (data : List (String × JVal))
  | failed (errMessage : String)

/-- The vendor body of an HTTP-ok response, after `apiResponse.json()`:
whether `result?.candidates?.[0]?.content?.parts?.[0]?.text` is present
(and, if so, how parsing it goes), and the candidate's `finishReason`. -/
structure OkBody where
  partText : Option ParseOutcome
  finishReason : Option FinishReason

/-- The outcome of one `fetch` attempt: an ok (2xx) response with its body,
a non-success status (with `statusText` and the optional
`errorJson?.error?.message` extracted from the error body when the body is
JSON and that message is truthy), or a rejected fetch (network error). -/
inductive FetchOutcome where
  | ok (body : OkBody)
  | status (code : Nat) (statusText : String) (errMessage : Option String)
  | netErr (e : JsError)

/-- grammar.js line 71: `const MAX_RETRIES = 3`. -/
def MAX_RETRIES : Nat := 3

/-- grammar.js line 72: `const BASE_DELAY = 1000`. -/
def BASE_DELAY : Nat := 1000

/-- grammar.js lines 98–100: the reason string for a missing `part.text`. -/
def missingTextReason : Option FinishReason → String
  | some FinishReason.SAFETY => "AI response blocked due to safety settings."
  | some FinishReason.RECITATION => "AI response blocked due to potential recitation."
  | _ => "Unexpected or empty response structure from AI."

/-- What the body of the inner `try` (grammar.js lines 80–133) does with one
fetch outcome at a given attempt index. -/
inductive FetchStep where
  | ret (data : List (String × JVal))
  | cont (delay : Nat)
  | thrown (e : JsError)

/-- grammar.js lines 80–133: success parsing, the 503 branch, the
non-retryable branch, and a rejected fetch (which propagates the error to
the inner catch). -/
def fetchBranch (o : FetchOutcome) (attempt : Nat) : FetchStep :=
  match o with
  | FetchOutcome.ok body =>
    match body.partText with
    | none => FetchStep.thrown ⟨ErrKind.plain, missingTextReason body.finishReason⟩
    | some (ParseOutcome.failed m) => FetchStep.thrown ⟨ErrKind.parseFailure, m⟩
    | some (ParseOutcome.parsed data) => FetchStep.ret data
  | FetchOutcome.status code statusText errMessage =>
    if code == 503 then
      if attempt == MAX_RETRIES then
        FetchStep.thrown ⟨ErrKind.plain,
          "The model is overloaded. Please try again later. (Max retries reached)"⟩
      else
        FetchStep.cont (BASE_DELAY * 2 ^ attempt)
    else
      FetchStep.thrown ⟨ErrKind.plain,
        errMessage.getD ("Gemini API Error: " ++ toString code ++ " " ++ statusText)⟩
  | FetchOutcome.netErr e => FetchStep.thrown e

/-- Result of one loop iteration: a successful return, a continuation to
the next attempt (with the backoff delay slept, if any), or an error
propagated to the outer catch. -/
inductive StepResult where
  | success (data : List (String × JVal))
  | continueWith (delay : Option Nat)
  | toOuter (e : JsError)

/-- grammar.js lines 135–151, the inner `catch (fetchError)`: rethrow on
the last attempt; otherwise sleep and fall through to the next loop
iteration when the message mentions neither `'503'` nor `'overloaded'`,
and fall through without sleeping when it does. -/
def innerCatch (e : JsError) (attempt : Nat) : StepResult :=
  if attempt == MAX_RETRIES then
    StepResult.toOuter e
  else if !(jsIncludes e.message "503") && !(jsIncludes e.message "overloaded") then
    StepResult.continueWith (some (BASE_DELAY * 2 ^ attempt))
  else
    StepResult.continueWith none

/-- One full iteration of the retry loop at a given attempt index. -/
def attemptStep (o : FetchOutcome) (attempt : Nat) : StepResult :=
  match fetchBranch o attempt with
  | FetchStep.ret data => StepResult.success data
  | FetchStep.cont d => StepResult.continueWith (some d)
  | FetchStep.thrown e => innerCatch e attempt

/-- The handler's answer: a JSON response with a status, or no response
written at all (the JavaScript function falling off the loop and the outer
`try` without calling `res.*` — unreachable for the supplied inputs). -/
inductive HResp where
  | json (status : Nat) (body : List (String × JVal))
  | noResponse

/-- A complete run of a retrying handler: how many outbound calls were
made, the backoff delays slept between attempts, and the HTTP response. -/
structure RunResult where
  calls : Nat
  delays : List Nat
  response : HResp

/-- grammar.js lines 154–169, the outer catch: pick the caller-facing
message from the error's class and message. -/
def grammarOuterMessage (e : JsError) : String :=
  if e.kind = ErrKind.aborted then
    "ERROR: The AI analysis took too long. Please try again."
  else if jsIncludes e.message "overloaded" then
    "ERROR: The model is overloaded. Please try again later."
  else if jsIncludes e.message "Gemini API Error:" then
    "ERROR: " ++ e.message
  else if e.kind = ErrKind.parseFailure then
    "ERROR: Received an invalid response format from the AI."
  else
    "ERROR: The AI service encountered an issue processing the request."

/-- grammar.js lines 76–152: the `for` loop.  `attempts` lists the fetch
outcome of each call the handler goes on to make; each iteration consumes
one.  Termination: every path at `attempt = MAX_RETRIES` returns or goes
to the outer catch, so at most `MAX_RETRIES + 1` entries are consumed. -/
def geminiLoop : List FetchOutcome → Nat → Nat → List Nat → RunResult
  | [], _, calls, delays => ⟨calls, delays, HResp.noResponse⟩
  | o :: rest, attempt, calls, delays =>
    match attemptStep o attempt with
    | StepResult.success data =>
      ⟨calls + 1, delays, HResp.json 200 (successEnvelope data)⟩
    | StepResult.continueWith (some d) =>
      geminiLoop rest (attempt + 1) (calls + 1) (delays ++ [d])
    | StepResult.continueWith none =>
      geminiLoop rest (attempt + 1) (calls + 1) delays
    | StepResult.toOuter e =>
      ⟨calls + 1, delays, HResp.json 500 (errorEnvelope (grammarOuterMessage e))⟩

/-- grammar.js lines 19–173 (`handler`, inside the CORS wrapper, so the
method is POST): key check, input check, then the retry loop.
`keyConfigured` is the truthiness of `process.env.GEMINI_API_KEY`,
`textPresent` that of `req.body.text`. -/
def grammarHandler (keyConfigured textPresent : Bool)
    (attempts : List FetchOutcome) : RunResult :=
  if !keyConfigured then
    ⟨0, [], HResp.json 500 (errorEnvelope "ERROR: API Key is not configured on the server.")⟩
  else if !textPresent then
    ⟨0, [], HResp.json 400 (errorEnvelope "ERROR: Input text is required.")⟩
  else
    geminiLoop attempts 0 0 []

/-- Recogniser for a 503 (overload) fetch outcome. -/
def isStatus503 : FetchOutcome → Bool
  | FetchOutcome.status code _ _ => code == 503
  | _ => false

theorem isStatus503_eq {o : FetchOutcome} (h : isStatus503 o = true) :
    ∃ st em, o = FetchOutcome.status 503 st em := by
  cases o with
  | status code st em =>
    have : code = 503 := by simpa [isStatus503] using h
    exact ⟨st, em, by rw [this]⟩
  | ok body => simp [isStatus503] at h
  | netErr e => simp [isStatus503] at h

/-- Shared evaluation: with four consecutive 503 answers the grammar
handler makes 4 calls, sleeps 1000, 2000, 4000 ms, and ends in the 500
overload envelope. -/
theorem grammarHandler_all503 (st0 st1 st2 st3 : String)
    (em0 em1 em2 em3 : Option String) (rest : List FetchOutcome) :
    grammarHandler true true
      (FetchOutcome.status 503 st0 em0 :: FetchOutcome.status 503 st1 em1 ::
       FetchOutcome.status 503 st2 em2 :: FetchOutcome.status 503 st3 em3 :: rest) =
    ⟨4, [1000, 2000, 4000],
      HResp.json 500 (errorEnvelope "ERROR: The model is overloaded. Please try again later.")⟩ := by
  rfl

/-- A non-success vendor status other than 503 takes the non-retryable
branch of grammar.js (lines 124–133): the error body is extracted and
thrown. -/
theorem fetchBranch_vendor (code : Nat) (st : String) (em : Option String)
    (attempt : Nat) (hc : (code == 503) = false) :
    fetchBranch (FetchOutcome.status code st em) attempt =
      FetchStep.thrown ⟨ErrKind.plain,
        em.getD ("Gemini API Error: " ++ toString code ++ " " ++ st)⟩ := by
  simp [fetchBranch, hc]

/-- A thrown error at an attempt that is not the last is caught by the
inner catch and the loop continues to the next attempt (with or without a
backoff sleep, depending on the message). -/
theorem geminiLoop_cons_of_thrown_mid (o : FetchOutcome) (e : JsError)
    (rest : List FetchOutcome) (attempt calls : Nat) (delays : List Nat)
    (he : fetchBranch o attempt = FetchStep.thrown e)
    (hn : (attempt == MAX_RETRIES) = false) :
    ∃ delays2, geminiLoop (o :: rest) attempt calls delays =
      geminiLoop rest (attempt + 1) (calls + 1) delays2 := by
  cases hinc : !(jsIncludes e.message "503") && !(jsIncludes e.message "overloaded") with
  | true =>
    exact ⟨delays ++ [BASE_DELAY * 2 ^ attempt],
      by simp [geminiLoop, attemptStep, he, innerCatch, hn, hinc]⟩
  | false =>
    exact ⟨delays, by simp [geminiLoop, attemptStep, he, innerCatch, hn, hinc]⟩

/-- A thrown error at the last attempt is rethrown by the inner catch and
answered by the outer catch: a 500 with the JSON error envelope. -/
theorem geminiLoop_cons_of_thrown_last (o : FetchOutcome) (e : JsError)
    (rest : List FetchOutcome) (calls : Nat) (delays : List Nat)
    (he : fetchBranch o MAX_RETRIES = FetchStep.thrown e) :
    geminiLoop (o :: rest) MAX_RETRIES calls delays =
      ⟨calls + 1, delays, HResp.json 500 (errorEnvelope (grammarOuterMessage e))⟩ := by
  simp [geminiLoop, attemptStep, he, innerCatch]

/-! ## word-scramble-ai.js: single-shot Gemini JSON handler

Embedding of `src/api/word-scramble-ai.js`.  The handler answers OPTIONS
preflight inline, then validates `category` (line 16) BEFORE the API key
(line 19), then makes a single fetch whose entire `try` block collapses to
one of two responses.  The markdown-stripping regex and `JSON.parse` of
lines 60–65 are folded into `WSOutcome.parsed` / the failure cases: every
failure inside the `try` (non-JSON vendor body, a truthy `result.error`,
a missing `candidates[0].content.parts[0].text`, or a parse failure) is
caught by the single `catch` of lines 70–73 and yields the same 500. -/

/-- Outcome of the single word-scramble fetch, as seen by its `try`
block. -/
inductive WSOutcome where
  | notJson
  | errField (message : String)
  | missingPart
  | parseFailed
  | parsed (data : List (String × JVal))

/-- A word-scramble response: `response.status(s).end()` (no body) or a
JSON body. -/
inductive WSResp where
  | ended (status : Nat)
  | json (status : Nat) (body : List (String × JVal))

/-- A word-scramble run: outbound call count and response. -/
structure WSRun where
  calls : Nat
  response : WSResp

/-- word-scramble-ai.js lines 2–74. -/
def wordScrambleHandler (method : String) (categoryPresent keyConfigured : Bool)
    (outcome : WSOutcome) : WSRun :=
  if method == "OPTIONS" then
    ⟨0, WSResp.ended 200⟩
  else if !categoryPresent then
    ⟨0, WSResp.json 400 (errorEnvelope "ERROR: Category is required.")⟩
  else if !keyConfigured then
    ⟨0, WSResp.json 500 (errorEnvelope "ERROR: API Key is not configured on the server.")⟩
  else
    match outcome with
    | WSOutcome.parsed data => ⟨1, WSResp.json 200 (successEnvelope data)⟩
    | _ => ⟨1, WSResp.json 500 (errorEnvelope "ERROR: The AI service returned an error.")⟩

/-! ## remove-background.js (first handler): buffered ClipDrop proxy

Embedding of the first handler of `src/api/remove-background.js`
(lines 18–55).  On a vendor non-success status it parses the error body
(falling back to a constructed `{ error: ... }` object) and answers with
THE VENDOR'S status mirrored: `res.status(response.status).json(errorBody)`
(line 38). -/

/-- Outcome of the ClipDrop fetch in remove-background.js: an ok response
with the image bytes, a non-success status whose body is `errBody` when it
parses as JSON, or a rejected fetch. -/
inductive RBOutcome where
  | ok (image : List Nat)
  | errStatus (code : Nat) (errBody : Option (List (String × JVal)))
  | netErr

/-- A remove-background response: JSON, or the binary image bytes. -/
inductive RBResp where
  | json (status : Nat) (body : List (String × JVal))
  | binary (status : Nat) (image : List Nat)

/-- A remove-background run: outbound call count and response. -/
structure RBRun where
  calls : Nat
  response : RBResp

/-- remove-background.js lines 18–55 (inside the CORS wrapper). -/
def removeBackgroundHandler (keyConfigured : Bool) (o : RBOutcome) : RBRun :=
  if !keyConfigured then
    ⟨0, RBResp.json 500 [("error", JVal.str "API key not configured.")]⟩
  else
    match o with
    | RBOutcome.ok image => ⟨1, RBResp.binary 200 image⟩
    | RBOutcome.errStatus code errBody =>
      ⟨1, RBResp.json code
        (errBody.getD [("error", JVal.str ("ClipDrop API returned status " ++ toString code))])⟩
    | RBOutcome.netErr => ⟨1, RBResp.json 500 [("error", JVal.str "An internal server error occurred.")]⟩

/-! ## part_001 (first handler): streaming ClipDrop proxy with method check

Embedding of the first handler of `src/unnamed/part_001` (lines 7–42): the
only handler among the cited ones with an explicit 405 wrong-method
branch.  Vendor non-success statuses are again mirrored (line 31). -/

/-- Outcome of the ClipDrop fetch in part_001: ok (streamed image), a
non-success status with the error body text, or a rejected fetch. -/
inductive CDOutcome where
  | ok (image : List Nat)
  | errStatus (code : Nat) (errText : String)
  | netErr

/-- part_001 lines 7–42. -/
def clipdropStreamHandler (method : String) (keyConfigured : Bool)
    (o : CDOutcome) : RBRun :=
  if method != "POST" then
    ⟨0, RBResp.json 405 [("error", JVal.str "Method Not Allowed")]⟩
  else if !keyConfigured then
    ⟨0, RBResp.json 500 [("error", JVal.str "API key is not configured.")]⟩
  else
    match o with
    | CDOutcome.ok image => ⟨1, RBResp.binary 200 image⟩
    | CDOutcome.errStatus code errText =>
      ⟨1, RBResp.json code [("error", JVal.str ("API Error: " ++ errText))]⟩
    | CDOutcome.netErr => ⟨1, RBResp.json 500 [("error", JVal.str "Failed to process the image.")]⟩

/-! ## Buffer-and-repackage payload assembly

Embeddings of the payload assembly of the image handlers cited by the
multipart claim: the second handler of `src/api/remove-background.js`
(remove.bg, lines 74–110), `src/unnamed/part_003` (lines 18–52) and
`src/unnamed/part_002` (lines 35–73).  Each constructs a `FormData` with a
fixed synthetic field name and filename; what is then passed as the
`fetch` body differs between them and is recorded by the
`...OutboundBody` definitions. -/

/-- One entry of a `form-data` payload: `formData.append(field, content)`
or `formData.append(field, content, filename)`. -/
structure FormEntry where
  field : String
  filename : Option String
  content : List Nat ⊕ String

/-- The body handed to `fetch`: either raw bytes or a multipart form. -/
inductive OutBody where
  | raw (buf : List Nat)
  | form (entries : List FormEntry)

/-- part_002 lines 12–18, `buffer(readable)`: push every chunk, then
`Buffer.concat(chunks)`. -/
def part002Buffer (chunks : List (List Nat)) : List Nat :=
  (chunks.foldl (fun acc c => acc ++ [c]) []).flatten

/-- part_002 lines 48–49: the constructed FormData. -/
def part002FormData (imageBuffer : List Nat) : List FormEntry :=
  [⟨"image_file", some "image.jpg", Sum.inl imageBuffer⟩]

/-- part_002 line 56: `body: formData` — the multipart payload is sent. -/
def part002OutboundBody (imageBuffer : List Nat) : OutBody :=
  OutBody.form (part002FormData imageBuffer)

/-- part_003 lines 27–28: the constructed FormData. -/
def part003FormData (imageBuffer : List Nat) : List FormEntry :=
  [⟨"image_file", some "background.jpg", Sum.inl imageBuffer⟩]

/-- part_003 line 35: `body: imageBuffer` — the raw buffer is sent and the
constructed FormData goes unused. -/
def part003OutboundBody (imageBuffer : List Nat) : OutBody :=
  OutBody.raw imageBuffer

/-- remove-background.js lines 84–86 (second handler): the constructed
FormData. -/
def removeBg2FormData (imageBuffer : List Nat) : List FormEntry :=
  [⟨"image_file", some "image.jpg", Sum.inl imageBuffer⟩,
   ⟨"size", none, Sum.inr "auto"⟩]

/-- remove-background.js line 93 (second handler): `body: imageBuffer`
with the comment "Send the buffer directly". -/
def removeBg2OutboundBody (imageBuffer : List Nat) : OutBody :=
  OutBody.raw imageBuffer

theorem part002Buffer_eq_join (chunks : List (List Nat)) :
    part002Buffer chunks = chunks.flatten := by
  have h : ∀ (l : List (List Nat)) (acc : List (List Nat)),
      l.foldl (fun a c => a ++ [c]) acc = acc ++ l := by
    intro l
    induction l with
    | nil => intro acc; simp
    | cons c rest ih => intro acc; simp [List.foldl_cons, ih]
  simp [part002Buffer, h]

/-! ## Claim theorems -/

/-- C1: the claim says a non-success, non-503 vendor status (e.g. 400)
causes exactly 1 outbound call, no retry, and a 500 envelope embedding the
vendor's error message.  Evaluating grammar.js at an upstream that always
answers 400 with a vendor error message refutes both parts: the inner
catch treats the thrown error as retryable (its message mentions neither
'503' nor 'overloaded'), so the handler makes 4 outbound calls with
backoff sleeps, and the final 500 envelope carries the generic default
message, not the vendor's. -/
theorem c1_vendor_400_is_retried_and_message_dropped :
    grammarHandler true true
      (List.replicate 4
        (FetchOutcome.status 400 "Bad Request" (some "API key not valid. Please renew it."))) =
    ⟨4, [1000, 2000, 4000],
      HResp.json 500
        (errorEnvelope "ERROR: The AI service encountered an issue processing the request.")⟩ := by
  rfl

/-- C2: the claim says a success-status body missing the text part for a
safety/recitation reason fails immediately with no retry.  Evaluating
grammar.js at an upstream that always answers 200 with a SAFETY-blocked
empty candidate refutes it: the thrown "blocked due to safety settings"
error is caught by the inner catch and retried, so the handler makes 4
outbound calls (all retries are consumed) before answering 500. -/
theorem c2_safety_block_is_retried :
    grammarHandler true true
      (List.replicate 4 (FetchOutcome.ok ⟨none, some FinishReason.SAFETY⟩)) =
    ⟨4, [1000, 2000, 4000],
      HResp.json 500
        (errorEnvelope "ERROR: The AI service encountered an issue processing the request.")⟩ := by
  rfl

/-- C3: the claim says a success-status body whose text fails JSON parsing
yields a 500 invalid-response-format answer with no further outbound
attempt.  Evaluating grammar.js at an upstream whose body never parses
shows the 500 invalid-format message does arrive, but only after the
SyntaxError is caught by the inner catch and retried: 4 outbound calls are
made, refuting the no-further-attempt part. -/
theorem c3_parse_failure_is_retried :
    grammarHandler true true
      (List.replicate 4
        (FetchOutcome.ok ⟨some (ParseOutcome.failed "Unexpected token u in JSON at position 0"),
          none⟩)) =
    ⟨4, [1000, 2000, 4000],
      HResp.json 500 (errorEnvelope "ERROR: Received an invalid response format from the AI.")⟩ := by
  rfl

/-- C4 counterexample: the claim says vendor errors are answered with HTTP
500, but remove-background.js answers a vendor 402 by mirroring the
vendor's status: the response status is 402, not 500. -/
theorem c4_counterexample_vendor_status_mirrored :
    removeBackgroundHandler true
      (RBOutcome.errStatus 402 (some [("error", JVal.str "insufficient credits")])) =
      ⟨1, RBResp.json 402 [("error", JVal.str "insufficient credits")]⟩ ∧
    (402 : Nat) ≠ 500 :=
  ⟨rfl, by decide⟩

/-- C4 amended: terminal failures are answered with a single JSON error
envelope whose status is 400 for caller input errors, 500 for
configuration and overload errors, and 405 for wrong method; definitive
vendor errors map to 500 in the Gemini JSON handlers (a run whose
attempts all yield a non-503 vendor status ends in a 500 envelope built
from the last thrown vendor error), but the buffered ClipDrop proxy of
remove-background.js mirrors the vendor's own non-success status (and
body) instead of using 500. -/
theorem c4_amended_error_envelope_statuses :
    (∀ t a, grammarHandler false t a =
      ⟨0, [], HResp.json 500 (errorEnvelope "ERROR: API Key is not configured on the server.")⟩) ∧
    (∀ a, grammarHandler true false a =
      ⟨0, [], HResp.json 400 (errorEnvelope "ERROR: Input text is required.")⟩) ∧
    (∀ o0 o1 o2 o3 rest, isStatus503 o0 = true → isStatus503 o1 = true →
      isStatus503 o2 = true → isStatus503 o3 = true →
      (grammarHandler true true (o0 :: o1 :: o2 :: o3 :: rest)).response =
        HResp.json 500 (errorEnvelope "ERROR: The model is overloaded. Please try again later.")) ∧
    (∀ code0 st0 em0 code1 st1 em1 code2 st2 em2 code3 st3 em3
        (rest : List FetchOutcome),
      (code0 == 503) = false → (code1 == 503) = false →
      (code2 == 503) = false → (code3 == 503) = false →
      (grammarHandler true true
        (FetchOutcome.status code0 st0 em0 :: FetchOutcome.status code1 st1 em1 ::
         FetchOutcome.status code2 st2 em2 :: FetchOutcome.status code3 st3 em3 ::
         rest)).response =
        HResp.json 500 (errorEnvelope (grammarOuterMessage ⟨ErrKind.plain,
          em3.getD ("Gemini API Error: " ++ toString code3 ++ " " ++ st3)⟩))) ∧
    (∀ code body, (removeBackgroundHandler true (RBOutcome.errStatus code (some body))).response =
      RBResp.json code body) ∧
    (∀ m k o, (m != "POST") = true → clipdropStreamHandler m k o =
      ⟨0, RBResp.json 405 [("error", JVal.str "Method Not Allowed")]⟩) := by
  refine ⟨fun t a => rfl, fun a => rfl, ?_, ?_, fun code body => rfl, ?_⟩
  · intro o0 o1 o2 o3 rest h0 h1 h2 h3
    obtain ⟨st0, em0, rfl⟩ := isStatus503_eq h0
    obtain ⟨st1, em1, rfl⟩ := isStatus503_eq h1
    obtain ⟨st2, em2, rfl⟩ := isStatus503_eq h2
    obtain ⟨st3, em3, rfl⟩ := isStatus503_eq h3
    rw [grammarHandler_all503]
  · intro code0 st0 em0 code1 st1 em1 code2 st2 em2 code3 st3 em3 rest
      hc0 hc1 hc2 hc3
    obtain ⟨d1, h1⟩ := geminiLoop_cons_of_thrown_mid
      (FetchOutcome.status code0 st0 em0) _
      (FetchOutcome.status code1 st1 em1 :: FetchOutcome.status code2 st2 em2 ::
       FetchOutcome.status code3 st3 em3 :: rest) 0 0 []
      (fetchBranch_vendor code0 st0 em0 0 hc0) rfl
    obtain ⟨d2, h2⟩ := geminiLoop_cons_of_thrown_mid
      (FetchOutcome.status code1 st1 em1) _
      (FetchOutcome.status code2 st2 em2 :: FetchOutcome.status code3 st3 em3 ::
       rest) (0 + 1) (0 + 1) d1
      (fetchBranch_vendor code1 st1 em1 (0 + 1) hc1) rfl
    obtain ⟨d3, h3⟩ := geminiLoop_cons_of_thrown_mid
      (FetchOutcome.status code2 st2 em2) _
      (FetchOutcome.status code3 st3 em3 :: rest) (0 + 1 + 1) (0 + 1 + 1) d2
      (fetchBranch_vendor code2 st2 em2 (0 + 1 + 1) hc2) rfl
    have h4 := geminiLoop_cons_of_thrown_last
      (FetchOutcome.status code3 st3 em3) _ rest (0 + 1 + 1 + 1) d3
      (fetchBranch_vendor code3 st3 em3 MAX_RETRIES hc3)
    have hg : grammarHandler true true
        (FetchOutcome.status code0 st0 em0 :: FetchOutcome.status code1 st1 em1 ::
         FetchOutcome.status code2 st2 em2 :: FetchOutcome.status code3 st3 em3 ::
         rest) =
        geminiLoop
          (FetchOutcome.status code0 st0 em0 :: FetchOutcome.status code1 st1 em1 ::
           FetchOutcome.status code2 st2 em2 :: FetchOutcome.status code3 st3 em3 ::
           rest) 0 0 [] := rfl
    exact congrArg RunResult.response ((((hg.trans h1).trans h2).trans h3).trans h4)
  · intro m k o hm
    simp [clipdropStreamHandler, hm]

/-- C4 witness: the amended statement at concrete inputs — four 503
answers give the 500 overload envelope, four vendor 400 answers give a
500 envelope, and a GET to the streaming ClipDrop proxy gets 405. -/
theorem c4_amended_witness :
    (grammarHandler true true
      [FetchOutcome.status 503 "Service Unavailable" none,
       FetchOutcome.status 503 "Service Unavailable" none,
       FetchOutcome.status 503 "Service Unavailable" none,
       FetchOutcome.status 503 "Service Unavailable" none]).response =
      HResp.json 500 (errorEnvelope "ERROR: The model is overloaded. Please try again later.") ∧
    (grammarHandler true true
      (List.replicate 4
        (FetchOutcome.status 400 "Bad Request" (some "API key not valid. Please renew it.")))).response =
      HResp.json 500 (errorEnvelope (grammarOuterMessage
        ⟨ErrKind.plain, "API key not valid. Please renew it."⟩)) ∧
    clipdropStreamHandler "GET" true (CDOutcome.ok []) =
      ⟨0, RBResp.json 405 [("error", JVal.str "Method Not Allowed")]⟩ :=
  ⟨c4_amended_error_envelope_statuses.2.2.1 _ _ _ _ [] rfl rfl rfl rfl,
   c4_amended_error_envelope_statuses.2.2.2.1 400 "Bad Request"
     (some "API key not valid. Please renew it.") 400 "Bad Request"
     (some "API key not valid. Please renew it.") 400 "Bad Request"
     (some "API key not valid. Please renew it.") 400 "Bad Request"
     (some "API key not valid. Please renew it.") [] rfl rfl rfl rfl,
   c4_amended_error_envelope_statuses.2.2.2.2.2 "GET" true (CDOutcome.ok []) rfl⟩

/-- C5: if every outbound attempt yields the overload status 503, the
grammar handler makes exactly MAX_RETRIES + 1 = 4 outbound calls (sleeping
1000, 2000, 4000 ms between them) and answers 500 with the overload error
message. -/
theorem c5_overload_exhausts_retries (o0 o1 o2 o3 : FetchOutcome)
    (rest : List FetchOutcome)
    (h0 : isStatus503 o0 = true) (h1 : isStatus503 o1 = true)
    (h2 : isStatus503 o2 = true) (h3 : isStatus503 o3 = true) :
    grammarHandler true true (o0 :: o1 :: o2 :: o3 :: rest) =
      ⟨MAX_RETRIES + 1, [1000, 2000, 4000],
        HResp.json 500 (errorEnvelope "ERROR: The model is overloaded. Please try again later.")⟩ := by
  obtain ⟨st0, em0, rfl⟩ := isStatus503_eq h0
  obtain ⟨st1, em1, rfl⟩ := isStatus503_eq h1
  obtain ⟨st2, em2, rfl⟩ := isStatus503_eq h2
  obtain ⟨st3, em3, rfl⟩ := isStatus503_eq h3
  exact grammarHandler_all503 st0 st1 st2 st3 em0 em1 em2 em3 rest

/-- C5 witness: the all-503 run at a concrete outcome sequence. -/
theorem c5_overload_witness :
    grammarHandler true true
      [FetchOutcome.status 503 "Service Unavailable" none,
       FetchOutcome.status 503 "Service Unavailable" none,
       FetchOutcome.status 503 "Service Unavailable" none,
       FetchOutcome.status 503 "Service Unavailable" none] =
      ⟨MAX_RETRIES + 1, [1000, 2000, 4000],
        HResp.json 500 (errorEnvelope "ERROR: The model is overloaded. Please try again later.")⟩ :=
  c5_overload_exhausts_retries _ _ _ _ [] rfl rfl rfl rfl

/-- C6: for the upstream sequence [503, 503, 200-with-parsable-body], the
grammar handler makes exactly 3 outbound calls, the backoff delays are
BASE_DELAY * 2^0 = 1000 then BASE_DELAY * 2^1 = 2000 (strictly
increasing), and the caller receives 200 with the parsed payload of the
third call. -/
theorem c6_two_503_then_success (st0 st1 : String) (em0 em1 : Option String)
    (data : List (String × JVal)) (fr : Option FinishReason)
    (rest : List FetchOutcome) :
    grammarHandler true true
      (FetchOutcome.status 503 st0 em0 :: FetchOutcome.status 503 st1 em1 ::
       FetchOutcome.ok ⟨some (ParseOutcome.parsed data), fr⟩ :: rest) =
      ⟨3, [1000, 2000], HResp.json 200 (successEnvelope data)⟩ ∧
    List.Chain' (fun a b : Nat => a < b)
      (grammarHandler true true
        (FetchOutcome.status 503 st0 em0 :: FetchOutcome.status 503 st1 em1 ::
         FetchOutcome.ok ⟨some (ParseOutcome.parsed data), fr⟩ :: rest)).delays := by
  refine ⟨rfl, ?_⟩
  show List.Chain' (fun a b : Nat => a < b) [1000, 2000]
  simp [List.chain'_cons, List.chain'_singleton]

/-- C7 counterexample: word-scramble-ai.js validates `category` before the
API key, so a POST with no category while the secret is absent is answered
400, not 500 (still with zero outbound calls). -/
theorem c7_counterexample_input_check_first :
    wordScrambleHandler "POST" false false WSOutcome.notJson =
      ⟨0, WSResp.json 400 (errorEnvelope "ERROR: Category is required.")⟩ ∧
    (400 : Nat) ≠ 500 :=
  ⟨rfl, by decide⟩

/-- C7 amended: with the required secret absent, a handler makes zero
outbound calls and answers with a safe message; the status is 500, except
that word-scramble-ai.js checks the request's category first (a request
failing that validation gets 400) and answers OPTIONS preflight with a
bodyless 200. -/
theorem c7_amended_missing_key_no_outbound :
    (∀ t a, grammarHandler false t a =
      ⟨0, [], HResp.json 500 (errorEnvelope "ERROR: API Key is not configured on the server.")⟩) ∧
    (∀ o, wordScrambleHandler "POST" true false o =
      ⟨0, WSResp.json 500 (errorEnvelope "ERROR: API Key is not configured on the server.")⟩) ∧
    (∀ c o, wordScrambleHandler "OPTIONS" c false o = ⟨0, WSResp.ended 200⟩) ∧
    (∀ m c o, (wordScrambleHandler m c false o).calls = 0) := by
  refine ⟨fun t a => rfl, fun o => rfl, fun c o => rfl, ?_⟩
  intro m c o
  by_cases hm : (m == "OPTIONS") = true
  · simp [wordScrambleHandler, hm]
  · cases c <;> simp [wordScrambleHandler, hm]

/-- C8 counterexample: part_003 and the remove.bg handler of
remove-background.js construct a multipart payload but hand the raw
buffered image to `fetch` as the body: the outbound body is not the
constructed multipart payload. -/
theorem c8_counterexample_raw_body_sent :
    part003OutboundBody [1, 2, 3] ≠ OutBody.form (part003FormData [1, 2, 3]) ∧
    removeBg2OutboundBody [1, 2, 3] ≠ OutBody.form (removeBg2FormData [1, 2, 3]) :=
  ⟨fun h => OutBody.noConfusion h, fun h => OutBody.noConfusion h⟩

/-- C8 amended: the buffer-and-repackage handlers fully read the inbound
stream into memory (part_002's `buffer` concatenates every chunk) and
construct a multipart payload with the fixed synthetic field name
image_file and a fixed filename; part_002 sends that payload as the
outbound body, while part_003 and the remove.bg handler of
remove-background.js send the raw buffered image directly and leave the
constructed payload unused. -/
theorem c8_amended_buffer_and_repackage (chunks : List (List Nat)) (buf : List Nat) :
    part002Buffer chunks = chunks.flatten ∧
    part002OutboundBody (part002Buffer chunks) =
      OutBody.form [⟨"image_file", some "image.jpg", Sum.inl (part002Buffer chunks)⟩] ∧
    part003OutboundBody buf = OutBody.raw buf ∧
    removeBg2OutboundBody buf = OutBody.raw buf :=
  ⟨part002Buffer_eq_join chunks, rfl, rfl, rfl⟩

/-- C9: a vendor success body whose parsed object conforms to the grammar
response schema (exactly the fields analysis and corrections) is returned
to the caller unchanged: the 200 body is the literal success flag followed
by the parsed fields, and every field of the parsed object is looked up
identically in the response body. -/
theorem c9_schema_roundtrip (data : List (String × JVal)) (fr : Option FinishReason)
    (rest : List FetchOutcome)
    (hschema : data.map Prod.fst = ["analysis", "corrections"]) :
    grammarHandler true true
      (FetchOutcome.ok ⟨some (ParseOutcome.parsed data), fr⟩ :: rest) =
      ⟨1, [], HResp.json 200 (("success", JVal.bool true) :: data)⟩ ∧
    (∀ k v, getKey data k = some v →
      getKey (("success", JVal.bool true) :: data) k = some v) := by
  have hnd : (data.map Prod.fst).Nodup := by rw [hschema]; decide
  have hfresh : ∀ k, k ∈ data.map Prod.fst →
      k ∉ ([("success", JVal.bool true)] : List (String × JVal)).map Prod.fst := by
    intro k hk
    rw [hschema] at hk
    simp only [List.mem_cons, List.not_mem_nil, or_false] at hk
    rcases hk with rfl | rfl <;> decide
  have henv : successEnvelope data = ("success", JVal.bool true) :: data := by
    have h := spreadInto_of_fresh data [("success", JVal.bool true)] hfresh hnd
    simpa [successEnvelope] using h
  constructor
  · have h1 : grammarHandler true true
        (FetchOutcome.ok ⟨some (ParseOutcome.parsed data), fr⟩ :: rest) =
        ⟨1, [], HResp.json 200 (successEnvelope data)⟩ := rfl
    rw [h1, henv]
  · intro k v hkv
    obtain ⟨p, hfind⟩ : ∃ p, data.find? (fun q => q.1 == k) = some p := by
      cases hf : data.find? (fun q => q.1 == k) with
      | none => simp [getKey, hf] at hkv
      | some p => exact ⟨p, rfl⟩
    have hp1 : p.1 = k := by simpa using List.find?_some hfind
    have hkmem : k ∈ data.map Prod.fst := hp1 ▸ List.mem_map_of_mem Prod.fst
      (List.mem_of_find?_eq_some hfind)
    rw [hschema] at hkmem
    have hne : ("success" == k) = false := by
      simp only [List.mem_cons, List.not_mem_nil, or_false] at hkmem
      rcases hkmem with rfl | rfl <;> decide
    rw [← hkv]
    simp [getKey, List.find?, hne]

/-- C9 witness: a concrete schema-conformant body round-trips. -/
theorem c9_schema_roundtrip_witness :
    grammarHandler true true
      [FetchOutcome.ok ⟨some (ParseOutcome.parsed
        [("analysis", JVal.obj [("tone", JVal.str "Formal"), ("clarityScore", JVal.num 90)]),
         ("corrections", JVal.arr [])]), none⟩] =
      ⟨1, [], HResp.json 200
        [("success", JVal.bool true),
         ("analysis", JVal.obj [("tone", JVal.str "Formal"), ("clarityScore", JVal.num 90)]),
         ("corrections", JVal.arr [])]⟩ :=
  (c9_schema_roundtrip
    [("analysis", JVal.obj [("tone", JVal.str "Formal"), ("clarityScore", JVal.num 90)]),
     ("corrections", JVal.arr [])] none [] rfl).1

/-- C10: the 200 response of the grammar handler is built by spreading the
parsed vendor object after the literal success flag; consequently, when
the parsed object (with unique keys, as JSON.parse yields) has no
'success' key the response's success field is the literal true, and when
it carries its own 'success' key that value overrides the flag. -/
theorem c10_success_flag_spread (data : List (String × JVal)) (fr : Option FinishReason)
    (rest : List FetchOutcome) (hnd : (data.map Prod.fst).Nodup) :
    (grammarHandler true true
      (FetchOutcome.ok ⟨some (ParseOutcome.parsed data), fr⟩ :: rest)).response =
      HResp.json 200 (successEnvelope data) ∧
    ("success" ∉ data.map Prod.fst →
      getKey (successEnvelope data) "success" = some (JVal.bool true)) ∧
    (∀ v, getKey data "success" = some v →
      getKey (successEnvelope data) "success" = some v) := by
  refine ⟨rfl, ?_, ?_⟩
  · intro h
    rw [successEnvelope, getKey_spreadInto_of_not_mem data h]
    rfl
  · intro v hv
    obtain ⟨p, hfind⟩ : ∃ p, data.find? (fun q => q.1 == "success") = some p := by
      cases hf : data.find? (fun q => q.1 == "success") with
      | none => simp [getKey, hf] at hv
      | some p => exact ⟨p, rfl⟩
    obtain ⟨a, b⟩ := p
    have ha : a = "success" := by simpa using List.find?_some hfind
    have hb : b = v := by simpa [getKey, hfind] using hv
    subst ha; subst hb
    exact getKey_spreadInto_of_mem data hnd (List.mem_of_find?_eq_some hfind) _

/-- C10 witness: a parsed object carrying success: false overrides the
flag in the response body. -/
theorem c10_success_flag_witness :
    getKey (successEnvelope [("success", JVal.bool false), ("word", JVal.str "example")])
      "success" = some (JVal.bool false) :=
  (c10_success_flag_spread [("success", JVal.bool false), ("word", JVal.str "example")]
    none [] (by decide)).2.2 (JVal.bool false) rfl

end EasyUtilityHub
